import Mathlib

/-
  Verification of the reel-strip outcome-generation core of the
  infinity-stones slot server (src/game/reelStrips.js and
  src/game/reelStripGenerator.js), as a shallow embedding in Lean 4.

  Machine integers are modelled as Nat; JavaScript's `%` on nonnegative
  integers agrees with Nat.mod.  The entropy provider (src/game/rng.js)
  is not part of the sources; its interface is modelled from the spec
  (see the doc comments marked "Modelled from the spec").
-/

namespace InfinityStorm

/-- Strip version constant from reelStrips.js. -/
def STRIP_VERSION : String := "2.0.0"

/-- Strip length constant from reelStrips.js. -/
def STRIP_LENGTH : Nat := 120

/-- Base game reel strips from reelStrips.js: 6 columns, 120 symbols each. -/
def BASE_GAME_STRIPS : List (List String) := [
  [
    "time_gem", "time_gem", "space_gem", "space_gem", "mind_gem",
    "mind_gem", "power_gem", "power_gem", "reality_gem", "reality_gem",
    "soul_gem", "soul_gem", "thanos_weapon", "thanos_weapon", "scarlet_witch",
    "thanos", "time_gem", "time_gem", "space_gem", "space_gem",
    "mind_gem", "power_gem", "reality_gem", "soul_gem", "infinity_glove",
    "time_gem", "time_gem", "space_gem", "mind_gem", "mind_gem",
    "power_gem", "power_gem", "reality_gem", "soul_gem", "thanos_weapon",
    "thanos_weapon", "scarlet_witch", "thanos", "infinity_glove", "space_gem",
    "space_gem", "space_gem", "mind_gem", "power_gem", "reality_gem",
    "reality_gem", "soul_gem", "soul_gem", "thanos_weapon", "infinity_glove",
    "time_gem", "time_gem", "space_gem", "space_gem", "mind_gem",
    "mind_gem", "power_gem", "reality_gem", "soul_gem", "thanos_weapon",
    "scarlet_witch", "scarlet_witch", "thanos", "time_gem", "time_gem",
    "space_gem", "space_gem", "mind_gem", "power_gem", "power_gem",
    "reality_gem", "reality_gem", "soul_gem", "thanos_weapon", "infinity_glove",
    "time_gem", "space_gem", "space_gem", "mind_gem", "mind_gem",
    "power_gem", "power_gem", "reality_gem", "soul_gem", "soul_gem",
    "thanos_weapon", "thanos_weapon", "scarlet_witch", "thanos", "thanos",
    "time_gem", "time_gem", "space_gem", "mind_gem", "power_gem",
    "reality_gem", "soul_gem", "thanos_weapon", "scarlet_witch", "infinity_glove",
    "time_gem", "time_gem", "space_gem", "space_gem", "mind_gem",
    "power_gem", "reality_gem", "reality_gem", "soul_gem", "thanos_weapon",
    "scarlet_witch", "scarlet_witch", "thanos", "thanos", "time_gem",
    "space_gem", "mind_gem", "power_gem", "reality_gem", "infinity_glove"
  ],
  [
    "space_gem", "space_gem", "time_gem", "time_gem", "mind_gem",
    "mind_gem", "power_gem", "reality_gem", "reality_gem", "soul_gem",
    "soul_gem", "thanos_weapon", "thanos_weapon", "scarlet_witch", "infinity_glove",
    "time_gem", "time_gem", "space_gem", "space_gem", "mind_gem",
    "power_gem", "power_gem", "reality_gem", "soul_gem", "infinity_glove",
    "time_gem", "space_gem", "space_gem", "mind_gem", "mind_gem",
    "power_gem", "reality_gem", "reality_gem", "soul_gem", "soul_gem",
    "thanos_weapon", "scarlet_witch", "scarlet_witch", "thanos", "infinity_glove",
    "time_gem", "space_gem", "space_gem", "mind_gem", "power_gem",
    "power_gem", "reality_gem", "soul_gem", "thanos_weapon", "infinity_glove",
    "time_gem", "time_gem", "space_gem", "mind_gem", "mind_gem",
    "power_gem", "power_gem", "reality_gem", "reality_gem", "soul_gem",
    "thanos_weapon", "thanos_weapon", "scarlet_witch", "thanos", "thanos",
    "time_gem", "space_gem", "space_gem", "space_gem", "mind_gem",
    "power_gem", "reality_gem", "reality_gem", "soul_gem", "infinity_glove",
    "time_gem", "time_gem", "space_gem", "space_gem", "mind_gem",
    "mind_gem", "power_gem", "reality_gem", "soul_gem", "soul_gem",
    "thanos_weapon", "thanos_weapon", "scarlet_witch", "scarlet_witch", "thanos",
    "time_gem", "time_gem", "space_gem", "mind_gem", "power_gem",
    "power_gem", "reality_gem", "soul_gem", "thanos_weapon", "infinity_glove",
    "time_gem", "space_gem", "space_gem", "mind_gem", "mind_gem",
    "power_gem", "power_gem", "reality_gem", "reality_gem", "soul_gem",
    "thanos_weapon", "scarlet_witch", "thanos", "thanos", "time_gem",
    "space_gem", "mind_gem", "power_gem", "soul_gem", "thanos_weapon"
  ],
  [
    "mind_gem", "mind_gem", "time_gem", "time_gem", "space_gem",
    "space_gem", "power_gem", "power_gem", "reality_gem", "soul_gem",
    "soul_gem", "thanos_weapon", "scarlet_witch", "scarlet_witch", "thanos",
    "time_gem", "time_gem", "space_gem", "mind_gem", "mind_gem",
    "power_gem", "reality_gem", "reality_gem", "soul_gem", "infinity_glove",
    "time_gem", "time_gem", "space_gem", "space_gem", "mind_gem",
    "power_gem", "power_gem", "reality_gem", "reality_gem", "soul_gem",
    "thanos_weapon", "thanos_weapon", "scarlet_witch", "thanos", "infinity_glove",
    "space_gem", "space_gem", "space_gem", "mind_gem", "mind_gem",
    "power_gem", "reality_gem", "soul_gem", "soul_gem", "infinity_glove",
    "time_gem", "time_gem", "space_gem", "space_gem", "mind_gem",
    "mind_gem", "power_gem", "power_gem", "reality_gem", "soul_gem",
    "thanos_weapon", "thanos_weapon", "scarlet_witch", "thanos", "infinity_glove",
    "time_gem", "time_gem", "space_gem", "mind_gem", "power_gem",
    "power_gem", "reality_gem", "reality_gem", "soul_gem", "infinity_glove",
    "time_gem", "space_gem", "space_gem", "mind_gem", "mind_gem",
    "power_gem", "reality_gem", "reality_gem", "soul_gem", "soul_gem",
    "thanos_weapon", "thanos_weapon", "scarlet_witch", "scarlet_witch", "thanos",
    "time_gem", "time_gem", "space_gem", "space_gem", "mind_gem",
    "power_gem", "power_gem", "reality_gem", "soul_gem", "infinity_glove",
    "time_gem", "time_gem", "space_gem", "mind_gem", "mind_gem",
    "power_gem", "reality_gem", "soul_gem", "thanos_weapon", "thanos_weapon",
    "scarlet_witch", "thanos", "thanos", "time_gem", "space_gem",
    "space_gem", "mind_gem", "power_gem", "reality_gem", "soul_gem"
  ],
  [
    "power_gem", "power_gem", "time_gem", "time_gem", "space_gem",
    "space_gem", "mind_gem", "mind_gem", "reality_gem", "reality_gem",
    "soul_gem", "thanos_weapon", "thanos_weapon", "scarlet_witch", "thanos",
    "time_gem", "space_gem", "space_gem", "mind_gem", "mind_gem",
    "power_gem", "power_gem", "reality_gem", "soul_gem", "infinity_glove",
    "time_gem", "time_gem", "space_gem", "space_gem", "mind_gem",
    "power_gem", "reality_gem", "reality_gem", "soul_gem", "soul_gem",
    "thanos_weapon", "scarlet_witch", "scarlet_witch", "thanos", "thanos",
    "time_gem", "time_gem", "space_gem", "mind_gem", "mind_gem",
    "power_gem", "power_gem", "reality_gem", "soul_gem", "infinity_glove",
    "time_gem", "time_gem", "space_gem", "space_gem", "mind_gem",
    "mind_gem", "power_gem", "reality_gem", "reality_gem", "soul_gem",
    "soul_gem", "thanos_weapon", "thanos_weapon", "scarlet_witch", "thanos",
    "time_gem", "space_gem", "space_gem", "space_gem", "mind_gem",
    "power_gem", "power_gem", "reality_gem", "soul_gem", "infinity_glove",
    "time_gem", "time_gem", "space_gem", "mind_gem", "mind_gem",
    "power_gem", "power_gem", "reality_gem", "reality_gem", "soul_gem",
    "thanos_weapon", "thanos_weapon", "scarlet_witch", "scarlet_witch", "thanos",
    "time_gem", "time_gem", "space_gem", "space_gem", "mind_gem",
    "power_gem", "reality_gem", "reality_gem", "soul_gem", "infinity_glove",
    "time_gem", "space_gem", "space_gem", "mind_gem", "mind_gem",
    "power_gem", "power_gem", "reality_gem", "soul_gem", "soul_gem",
    "thanos_weapon", "scarlet_witch", "thanos", "thanos", "time_gem",
    "space_gem", "mind_gem", "power_gem", "reality_gem", "thanos_weapon"
  ],
  [
    "reality_gem", "reality_gem", "time_gem", "time_gem", "space_gem",
    "space_gem", "mind_gem", "power_gem", "power_gem", "soul_gem",
    "soul_gem", "thanos_weapon", "scarlet_witch", "scarlet_witch", "thanos",
    "time_gem", "time_gem", "space_gem", "space_gem", "mind_gem",
    "mind_gem", "power_gem", "reality_gem", "soul_gem", "infinity_glove",
    "time_gem", "space_gem", "space_gem", "mind_gem", "mind_gem",
    "power_gem", "power_gem", "reality_gem", "reality_gem", "soul_gem",
    "thanos_weapon", "thanos_weapon", "scarlet_witch", "thanos", "thanos",
    "time_gem", "time_gem", "space_gem", "space_gem", "mind_gem",
    "power_gem", "power_gem", "reality_gem", "soul_gem", "infinity_glove",
    "time_gem", "time_gem", "space_gem", "mind_gem", "mind_gem",
    "power_gem", "reality_gem", "reality_gem", "soul_gem", "soul_gem",
    "thanos_weapon", "thanos_weapon", "scarlet_witch", "scarlet_witch", "thanos",
    "time_gem", "time_gem", "space_gem", "space_gem", "mind_gem",
    "power_gem", "power_gem", "reality_gem", "reality_gem", "soul_gem",
    "thanos_weapon", "scarlet_witch", "thanos", "time_gem", "infinity_glove",
    "time_gem", "space_gem", "space_gem", "mind_gem", "mind_gem",
    "power_gem", "power_gem", "reality_gem", "soul_gem", "soul_gem",
    "thanos_weapon", "thanos_weapon", "scarlet_witch", "scarlet_witch", "thanos",
    "time_gem", "time_gem", "space_gem", "space_gem", "infinity_glove",
    "mind_gem", "mind_gem", "power_gem", "reality_gem", "reality_gem",
    "soul_gem", "thanos_weapon", "thanos", "thanos", "time_gem",
    "space_gem", "space_gem", "mind_gem", "power_gem", "reality_gem",
    "soul_gem", "soul_gem", "thanos_weapon", "scarlet_witch", "power_gem"
  ],
  [
    "soul_gem", "soul_gem", "time_gem", "time_gem", "space_gem",
    "space_gem", "mind_gem", "mind_gem", "power_gem", "reality_gem",
    "reality_gem", "thanos_weapon", "thanos_weapon", "scarlet_witch", "thanos",
    "time_gem", "time_gem", "space_gem", "mind_gem", "mind_gem",
    "power_gem", "power_gem", "reality_gem", "soul_gem", "infinity_glove",
    "time_gem", "space_gem", "space_gem", "space_gem", "mind_gem",
    "power_gem", "reality_gem", "reality_gem", "soul_gem", "soul_gem",
    "thanos_weapon", "scarlet_witch", "scarlet_witch", "thanos", "thanos",
    "time_gem", "time_gem", "space_gem", "space_gem", "mind_gem",
    "power_gem", "power_gem", "reality_gem", "soul_gem", "infinity_glove",
    "time_gem", "time_gem", "space_gem", "mind_gem", "mind_gem",
    "power_gem", "power_gem", "reality_gem", "reality_gem", "soul_gem",
    "soul_gem", "thanos_weapon", "thanos_weapon", "scarlet_witch", "thanos",
    "time_gem", "space_gem", "space_gem", "space_gem", "mind_gem",
    "mind_gem", "power_gem", "reality_gem", "soul_gem", "infinity_glove",
    "time_gem", "time_gem", "space_gem", "mind_gem", "power_gem",
    "power_gem", "reality_gem", "reality_gem", "soul_gem", "soul_gem",
    "thanos_weapon", "thanos_weapon", "scarlet_witch", "scarlet_witch", "thanos",
    "time_gem", "time_gem", "space_gem", "space_gem", "mind_gem",
    "power_gem", "power_gem", "reality_gem", "soul_gem", "infinity_glove",
    "time_gem", "space_gem", "space_gem", "mind_gem", "mind_gem",
    "power_gem", "reality_gem", "reality_gem", "soul_gem", "thanos_weapon",
    "thanos_weapon", "scarlet_witch", "thanos", "thanos", "time_gem",
    "space_gem", "mind_gem", "power_gem", "reality_gem", "soul_gem"
  ]
]

/-- Free spins reel strips from reelStrips.js: 6 columns, 120 symbols each. -/
def FREE_SPINS_STRIPS : List (List String) := [
  [
    "time_gem", "time_gem", "space_gem", "space_gem", "thanos_weapon",
    "thanos_weapon", "scarlet_witch", "scarlet_witch", "thanos", "thanos",
    "time_gem", "time_gem", "space_gem", "mind_gem", "power_gem",
    "reality_gem", "soul_gem", "thanos_weapon", "thanos_weapon", "scarlet_witch",
    "thanos", "time_gem", "time_gem", "space_gem", "infinity_glove",
    "time_gem", "space_gem", "space_gem", "thanos_weapon", "thanos_weapon",
    "scarlet_witch", "scarlet_witch", "thanos", "time_gem", "time_gem",
    "space_gem", "space_gem", "mind_gem", "power_gem", "thanos_weapon",
    "thanos", "thanos", "scarlet_witch", "time_gem", "time_gem",
    "space_gem", "space_gem", "thanos_weapon", "thanos_weapon", "infinity_glove",
    "time_gem", "time_gem", "space_gem", "scarlet_witch", "scarlet_witch",
    "thanos", "thanos", "mind_gem", "power_gem", "thanos_weapon",
    "time_gem", "space_gem", "space_gem", "thanos_weapon", "thanos_weapon",
    "scarlet_witch", "thanos", "time_gem", "time_gem", "space_gem",
    "reality_gem", "soul_gem", "thanos_weapon", "scarlet_witch", "infinity_glove",
    "time_gem", "time_gem", "space_gem", "space_gem", "thanos_weapon",
    "thanos_weapon", "scarlet_witch", "scarlet_witch", "thanos", "thanos",
    "time_gem", "space_gem", "mind_gem", "power_gem", "thanos_weapon",
    "scarlet_witch", "time_gem", "time_gem", "space_gem", "space_gem",
    "thanos_weapon", "thanos", "thanos", "scarlet_witch", "infinity_glove",
    "time_gem", "time_gem", "space_gem", "space_gem", "thanos_weapon",
    "thanos_weapon", "scarlet_witch", "thanos", "reality_gem", "soul_gem",
    "time_gem", "space_gem", "thanos_weapon", "scarlet_witch", "infinity_glove",
    "time_gem", "space_gem", "thanos", "thanos", "scarlet_witch"
  ],
  [
    "space_gem", "space_gem", "time_gem", "time_gem", "thanos_weapon",
    "thanos_weapon", "scarlet_witch", "thanos", "thanos", "mind_gem",
    "power_gem", "time_gem", "time_gem", "space_gem", "space_gem",
    "thanos_weapon", "thanos_weapon", "scarlet_witch", "scarlet_witch", "thanos",
    "time_gem", "space_gem", "reality_gem", "soul_gem", "infinity_glove",
    "time_gem", "time_gem", "space_gem", "space_gem", "thanos_weapon",
    "thanos_weapon", "scarlet_witch", "thanos", "thanos", "time_gem",
    "space_gem", "mind_gem", "power_gem", "thanos_weapon", "scarlet_witch",
    "scarlet_witch", "time_gem", "time_gem", "space_gem", "space_gem",
    "thanos_weapon", "thanos", "thanos", "scarlet_witch", "infinity_glove",
    "time_gem", "time_gem", "space_gem", "thanos_weapon", "thanos_weapon",
    "scarlet_witch", "scarlet_witch", "thanos", "reality_gem", "soul_gem",
    "time_gem", "space_gem", "space_gem", "thanos_weapon", "thanos_weapon",
    "scarlet_witch", "thanos", "thanos", "time_gem", "time_gem",
    "space_gem", "mind_gem", "power_gem", "thanos_weapon", "infinity_glove",
    "time_gem", "time_gem", "space_gem", "space_gem", "thanos_weapon",
    "thanos_weapon", "scarlet_witch", "scarlet_witch", "thanos", "thanos",
    "time_gem", "space_gem", "thanos_weapon", "scarlet_witch", "reality_gem",
    "soul_gem", "time_gem", "time_gem", "space_gem", "space_gem",
    "thanos_weapon", "thanos", "scarlet_witch", "scarlet_witch", "infinity_glove",
    "time_gem", "time_gem", "space_gem", "space_gem", "thanos_weapon",
    "thanos_weapon", "scarlet_witch", "thanos", "thanos", "mind_gem",
    "power_gem", "time_gem", "space_gem", "thanos_weapon", "infinity_glove",
    "time_gem", "space_gem", "scarlet_witch", "thanos", "thanos_weapon"
  ],
  [
    "thanos_weapon", "thanos_weapon", "time_gem", "time_gem", "space_gem",
    "space_gem", "scarlet_witch", "scarlet_witch", "thanos", "thanos",
    "mind_gem", "power_gem", "time_gem", "time_gem", "space_gem",
    "thanos_weapon", "thanos_weapon", "scarlet_witch", "thanos", "reality_gem",
    "soul_gem", "time_gem", "space_gem", "space_gem", "infinity_glove",
    "time_gem", "time_gem", "space_gem", "thanos_weapon", "thanos_weapon",
    "scarlet_witch", "scarlet_witch", "thanos", "thanos", "time_gem",
    "space_gem", "mind_gem", "power_gem", "thanos_weapon", "scarlet_witch",
    "time_gem", "time_gem", "space_gem", "space_gem", "thanos_weapon",
    "thanos_weapon", "scarlet_witch", "thanos", "thanos", "infinity_glove",
    "time_gem", "time_gem", "space_gem", "space_gem", "thanos_weapon",
    "scarlet_witch", "scarlet_witch", "thanos", "reality_gem", "soul_gem",
    "time_gem", "space_gem", "thanos_weapon", "thanos_weapon", "scarlet_witch",
    "thanos", "thanos", "time_gem", "time_gem", "space_gem",
    "space_gem", "mind_gem", "power_gem", "thanos_weapon", "infinity_glove",
    "time_gem", "time_gem", "space_gem", "thanos_weapon", "thanos_weapon",
    "scarlet_witch", "scarlet_witch", "thanos", "thanos", "time_gem",
    "space_gem", "space_gem", "thanos_weapon", "scarlet_witch", "reality_gem",
    "soul_gem", "time_gem", "time_gem", "space_gem", "thanos_weapon",
    "thanos_weapon", "scarlet_witch", "thanos", "thanos", "infinity_glove",
    "time_gem", "time_gem", "space_gem", "space_gem", "thanos_weapon",
    "thanos_weapon", "scarlet_witch", "scarlet_witch", "thanos", "mind_gem",
    "power_gem", "time_gem", "space_gem", "thanos_weapon", "infinity_glove",
    "time_gem", "space_gem", "scarlet_witch", "thanos", "thanos_weapon"
  ],
  [
    "scarlet_witch", "scarlet_witch", "time_gem", "time_gem", "space_gem",
    "space_gem", "thanos_weapon", "thanos_weapon", "thanos", "thanos",
    "mind_gem", "power_gem", "time_gem", "space_gem", "thanos_weapon",
    "thanos_weapon", "scarlet_witch", "scarlet_witch", "thanos", "reality_gem",
    "soul_gem", "time_gem", "time_gem", "space_gem", "infinity_glove",
    "time_gem", "space_gem", "space_gem", "thanos_weapon", "thanos_weapon",
    "scarlet_witch", "thanos", "thanos", "time_gem", "time_gem",
    "space_gem", "mind_gem", "power_gem", "thanos_weapon", "scarlet_witch",
    "scarlet_witch", "time_gem", "time_gem", "space_gem", "space_gem",
    "thanos_weapon", "thanos_weapon", "thanos", "thanos", "infinity_glove",
    "time_gem", "time_gem", "space_gem", "thanos_weapon", "scarlet_witch",
    "scarlet_witch", "thanos", "thanos", "reality_gem", "soul_gem",
    "time_gem", "space_gem", "space_gem", "thanos_weapon", "thanos_weapon",
    "scarlet_witch", "scarlet_witch", "thanos", "time_gem", "time_gem",
    "space_gem", "mind_gem", "power_gem", "thanos_weapon", "infinity_glove",
    "time_gem", "time_gem", "space_gem", "space_gem", "thanos_weapon",
    "thanos_weapon", "scarlet_witch", "thanos", "thanos", "time_gem",
    "space_gem", "thanos_weapon", "scarlet_witch", "scarlet_witch", "reality_gem",
    "soul_gem", "time_gem", "time_gem", "space_gem", "thanos_weapon",
    "thanos_weapon", "scarlet_witch", "thanos", "thanos", "infinity_glove",
    "time_gem", "time_gem", "space_gem", "space_gem", "thanos_weapon",
    "scarlet_witch", "scarlet_witch", "thanos", "thanos", "mind_gem",
    "power_gem", "time_gem", "space_gem", "thanos_weapon", "infinity_glove",
    "time_gem", "space_gem", "scarlet_witch", "thanos", "thanos_weapon"
  ],
  [
    "thanos", "thanos", "time_gem", "time_gem", "space_gem",
    "space_gem", "thanos_weapon", "thanos_weapon", "scarlet_witch", "scarlet_witch",
    "mind_gem", "power_gem", "time_gem", "space_gem", "thanos_weapon",
    "scarlet_witch", "scarlet_witch", "thanos", "thanos", "reality_gem",
    "soul_gem", "time_gem", "time_gem", "space_gem", "infinity_glove",
    "time_gem", "space_gem", "space_gem", "thanos_weapon", "thanos_weapon",
    "scarlet_witch", "scarlet_witch", "thanos", "thanos", "time_gem",
    "time_gem", "space_gem", "mind_gem", "power_gem", "thanos_weapon",
    "thanos_weapon", "scarlet_witch", "thanos", "thanos", "time_gem",
    "space_gem", "space_gem", "thanos_weapon", "scarlet_witch", "infinity_glove",
    "time_gem", "time_gem", "space_gem", "thanos_weapon", "thanos_weapon",
    "scarlet_witch", "scarlet_witch", "thanos", "thanos", "reality_gem",
    "soul_gem", "time_gem", "space_gem", "space_gem", "thanos_weapon",
    "thanos_weapon", "scarlet_witch", "thanos", "thanos", "time_gem",
    "time_gem", "space_gem", "mind_gem", "power_gem", "infinity_glove",
    "time_gem", "time_gem", "space_gem", "space_gem", "thanos_weapon",
    "thanos_weapon", "scarlet_witch", "scarlet_witch", "thanos", "thanos",
    "time_gem", "space_gem", "thanos_weapon", "scarlet_witch", "reality_gem",
    "soul_gem", "time_gem", "time_gem", "space_gem", "space_gem",
    "thanos_weapon", "thanos_weapon", "scarlet_witch", "thanos", "infinity_glove",
    "time_gem", "time_gem", "space_gem", "thanos_weapon", "thanos_weapon",
    "scarlet_witch", "scarlet_witch", "thanos", "thanos", "mind_gem",
    "power_gem", "time_gem", "space_gem", "thanos_weapon", "infinity_glove",
    "time_gem", "space_gem", "scarlet_witch", "thanos", "thanos_weapon"
  ],
  [
    "thanos_weapon", "thanos_weapon", "time_gem", "time_gem", "space_gem",
    "space_gem", "scarlet_witch", "scarlet_witch", "thanos", "thanos",
    "mind_gem", "power_gem", "time_gem", "space_gem", "thanos_weapon",
    "thanos_weapon", "scarlet_witch", "thanos", "thanos", "reality_gem",
    "soul_gem", "time_gem", "time_gem", "space_gem", "infinity_glove",
    "time_gem", "space_gem", "space_gem", "thanos_weapon", "thanos_weapon",
    "scarlet_witch", "scarlet_witch", "thanos", "thanos", "time_gem",
    "time_gem", "space_gem", "mind_gem", "power_gem", "thanos_weapon",
    "scarlet_witch", "scarlet_witch", "thanos", "thanos", "time_gem",
    "space_gem", "space_gem", "thanos_weapon", "thanos_weapon", "infinity_glove",
    "time_gem", "time_gem", "space_gem", "thanos_weapon", "scarlet_witch",
    "scarlet_witch", "thanos", "thanos", "reality_gem", "soul_gem",
    "time_gem", "space_gem", "space_gem", "thanos_weapon", "thanos_weapon",
    "scarlet_witch", "scarlet_witch", "thanos", "thanos", "time_gem",
    "time_gem", "space_gem", "mind_gem", "power_gem", "infinity_glove",
    "time_gem", "time_gem", "space_gem", "space_gem", "thanos_weapon",
    "thanos_weapon", "scarlet_witch", "thanos", "thanos", "time_gem",
    "space_gem", "thanos_weapon", "thanos_weapon", "scarlet_witch", "scarlet_witch",
    "reality_gem", "soul_gem", "time_gem", "time_gem", "space_gem",
    "thanos_weapon", "scarlet_witch", "thanos", "thanos", "infinity_glove",
    "time_gem", "time_gem", "space_gem", "space_gem", "thanos_weapon",
    "thanos_weapon", "scarlet_witch", "scarlet_witch", "thanos", "mind_gem",
    "power_gem", "time_gem", "space_gem", "thanos_weapon", "infinity_glove",
    "time_gem", "space_gem", "scarlet_witch", "thanos", "thanos_weapon"
  ]
]

/-- getStrips from reelStrips.js: selects the strip set for the mode. -/
def getStrips (freeSpinsMode : Bool) : List (List String) :=
  if freeSpinsMode then FREE_SPINS_STRIPS else BASE_GAME_STRIPS

/-- Error taxonomy of the core (spec section 7).  The JS code throws
Error objects with messages; we classify them by the condition that
raised them: version-mismatch in reconstructGrid, malformed stop
positions in reconstructGrid, invalid column index in getStrip. -/
inductive GenError where
  | VersionMismatch
  | InvalidInput
  | OutOfRange
deriving DecidableEq, Repr

/-- getStrip from reelStrips.js: throws on an invalid column index.
Columns are Nat here, so only the upper bound `column >= strips.length`
from the source can fire. -/
def getStrip (column : Nat) (freeSpinsMode : Bool) : Except GenError (List String) :=
  let strips := getStrips freeSpinsMode
  if column < strips.length then Except.ok (strips.getD column []) else Except.error GenError.OutOfRange

/-- The closed 10-symbol alphabet from validateStrips in reelStrips.js. -/
def validSymbols : List String :=
  ["time_gem", "space_gem", "mind_gem", "power_gem", "reality_gem",
   "soul_gem", "thanos_weapon", "scarlet_witch", "thanos", "infinity_glove"]

/-- Validation report structure of validateStrips. -/
structure ValidationResult where
  valid : Bool
  errors : List String
  warnings : List String
deriving DecidableEq, Repr

/-- Scatter count of a strip: `strip.filter(s => s === 'infinity_glove').length`. -/
def scatterCount (strip : List String) : Nat :=
  (strip.filter (fun s => s == "infinity_glove")).length

/-- Body of the per-position alphabet loop of validateStrips
(reelStrips.js lines 521-526): flag an error unless the symbol at pos
belongs to the alphabet. -/
def alphabetCheckStep (modeName : String) (col : Nat) (strip : List String) (a : ValidationResult) (pos : Nat) : ValidationResult :=
  if validSymbols.contains (strip.getD pos "") then a
  else
    { a with
      valid := false,
      errors := a.errors ++
        [modeName ++ " column " ++ toString col ++ " position " ++
         toString pos ++ ": Invalid symbol " ++ strip.getD pos ""] }

/-- Per-strip checks of validateStrips (reelStrips.js lines 513-533):
length check, per-position alphabet check, scatter-band warning. -/
def checkStrip (modeName : String) (col : Nat) (strip : List String) (acc : ValidationResult) : ValidationResult :=
  let acc1 : ValidationResult :=
    if strip.length ≠ STRIP_LENGTH then
      { acc with
        valid := false,
        errors := acc.errors ++
          [modeName ++ " column " ++ toString col ++ ": Expected " ++
           toString STRIP_LENGTH ++ " symbols, got " ++ toString strip.length] }
    else acc
  let acc2 : ValidationResult :=
    (List.range strip.length).foldl (alphabetCheckStep modeName col strip) acc1
  let sc := scatterCount strip
  if sc < 4 ∨ sc > 7 then
    { acc2 with
        warnings := acc2.warnings ++
        [modeName ++ " column " ++ toString col ++ ": Scatter count " ++
         toString sc ++ " may affect trigger rate"] }
  else acc2

/-- Per-mode checks of validateStrips: strip-set count then each strip. -/
def checkMode (modeName : String) (strips : List (List String)) (acc : ValidationResult) : ValidationResult :=
  let acc1 : ValidationResult :=
    if strips.length ≠ 6 then
      { acc with
        valid := false,
        errors := acc.errors ++
          [modeName ++ ": Expected 6 strips, got " ++ toString strips.length] }
    else acc
  (List.range strips.length).foldl (fun a col => checkStrip modeName col (strips.getD col []) a) acc1

/-- validateStrips generalised over the strip tables (the source walks
the literal pair [base, free_spins]). -/
def validateStripsOn (base free : List (List String)) : ValidationResult :=
  checkMode "free_spins" free (checkMode "base" base { valid := true, errors := [], warnings := [] })

/-- validateStrips from reelStrips.js applied to the shipped tables. -/
def validateStrips : ValidationResult :=
  validateStripsOn BASE_GAME_STRIPS FREE_SPINS_STRIPS

/-- Structural (error-raising) part of the per-strip checks, as a
decidable predicate: correct length and every symbol in the alphabet. -/
def stripStructOk (strip : List String) : Bool :=
  strip.length == STRIP_LENGTH && strip.all (fun s => validSymbols.contains s)

/-- Structural (error-raising) part of the per-mode checks. -/
def modeStructOk (strips : List (List String)) : Bool :=
  strips.length == 6 && strips.all stripStructOk

/-- Modelled from the spec: src/game/rng.js is not among the sources.
Spec section 4.1 specifies the Entropy Provider as a source of uniform
draws with a monotonic call counter.  We model it as an abstract stream
of naturals together with the number of draws consumed so far. -/
structure EntropySource where
  stream : Nat → Nat
  calls : Nat

/-- Modelled from the spec: randomInt(min, max) is an inclusive-bounds
uniform integer draw that consumes one entropy draw.  The stream value
is mapped into [lo, hi] and the call counter advances by one. -/
def randomInt (lo hi : Nat) (src : EntropySource) : Nat × EntropySource :=
  (lo + src.stream src.calls % (hi + 1 - lo), { src with calls := src.calls + 1 })

/-- Modelled from the spec: seededStream(seed) is a fully deterministic
uniform01-like stream, a pure function of the seed string.  We model
its i-th draw as a pure hash of (seed, i) scaled to [0, 2^53), standing
for a float i/2^53 in [0,1). -/
def seededUnitNum (seed : String) (i : Nat) : Nat :=
  seed.data.foldl (fun h c => (h * 1099511628211 + c.toNat + 1) % 2 ^ 53)
    (i * 2654435761 % 2 ^ 53)

/-- State of one createSeededRNG stream: the seed and the index of the
next draw. -/
structure SeededRNG where
  seed : String
  idx : Nat
deriving DecidableEq, Repr

/-- One call of a seeded stream: value of the current index, index advances. -/
def nextSeeded (s : SeededRNG) : Nat × SeededRNG :=
  (seededUnitNum s.seed s.idx, { s with idx := s.idx + 1 })

/-- Math.floor(u * len) for a unit draw u represented as v / 2^53. -/
def floorScale (v len : Nat) : Nat := v * len / 2 ^ 53

/-- Statistics fields of the generator (reelStripGenerator.js
constructor).  The wall-clock `initialized` timestamp is real time and
is not modelled. -/
structure Statistics where
  gridsGenerated : Nat
  symbolsGenerated : Nat
  replacementSymbolsGenerated : Nat
  lastStopPositions : Option (List Nat)
deriving DecidableEq, Repr

/-- Generator instance state: the entropy provider handle plus the
mutable statistics. -/
structure GenState where
  rng : EntropySource
  statistics : Statistics

/-- Seeded branch of generateStopPositions: one seeded draw per column,
each mapped by Math.floor(u * STRIP_LENGTH). -/
def seededPositionsAux : Nat → SeededRNG → List Nat × SeededRNG
  | 0, s => ([], s)
  | Nat.succ n, s =>
      let (v, s1) := nextSeeded s
      let p := floorScale v STRIP_LENGTH
      let (rest, s2) := seededPositionsAux n s1
      (p :: rest, s2)

/-- Unseeded branch of generateStopPositions: one randomInt(0,
STRIP_LENGTH - 1) draw per column from the live provider. -/
def unseededPositionsAux : Nat → EntropySource → List Nat × EntropySource
  | 0, src => ([], src)
  | Nat.succ n, src =>
      let (p, src1) := randomInt 0 (STRIP_LENGTH - 1) src
      let (rest, src2) := unseededPositionsAux n src1
      (p :: rest, src2)

/-- generateStopPositions from reelStripGenerator.js.  The source tests
`if (seed)`, under which both null and the empty string are falsy, so a
missing or empty seed takes the live-entropy branch; a non-empty seed
takes a fresh seeded stream and leaves the live provider untouched. -/
def generateStopPositions (cols : Nat) (seed : Option String) (src : EntropySource) : List Nat × EntropySource :=
  match seed with
  | some sd =>
      if sd.isEmpty then unseededPositionsAux cols src
      else ((seededPositionsAux cols { seed := sd, idx := 0 }).1, src)
  | none => unseededPositionsAux cols src

/-- The grid-building double loop shared verbatim by generateInitialGrid
(lines 78-92) and reconstructGrid (lines 283-294): for each column, read
`rows` consecutive symbols from that column's strip starting at its stop
position, wrapping modulo the strip length. -/
def buildGrid (strips : List (List String)) (stopPositions : List Nat) (rows cols : Nat) : List (List String) :=
  (List.range cols).map (fun col =>
    let strip := strips.getD col []
    let stopPos := stopPositions.getD col 0
    (List.range rows).map (fun row => strip.getD ((stopPos + row) % strip.length) ""))

/-- Result record of generateInitialGrid.  The symbolCounts and
metadata diagnostics of the source are omitted; grid, stopPositions and
stripVersion are the fields the spec's contracts are about. -/
structure GridResult where
  grid : List (List String)
  stopPositions : List Nat
  stripVersion : String
deriving DecidableEq, Repr

/-- generateInitialGrid from reelStripGenerator.js: pick the strip set
for the mode, draw one stop position per column, build the grid by the
wraparound window rule, update the statistics.  rows and cols default
to 5 and 6 in the source constructor. -/
def generateInitialGrid (rows cols : Nat) (freeSpinsMode : Bool) (seed : Option String) (st : GenState) : GridResult × GenState :=
  let strips := getStrips freeSpinsMode
  let (stopPositions, rng1) := generateStopPositions cols seed st.rng
  let grid := buildGrid strips stopPositions rows cols
  let stats : Statistics :=
    { st.statistics with
      gridsGenerated := st.statistics.gridsGenerated + 1,
      symbolsGenerated := st.statistics.symbolsGenerated + cols * rows,
      lastStopPositions := some stopPositions }
  ({ grid := grid, stopPositions := stopPositions, stripVersion := STRIP_VERSION },
   { rng := rng1, statistics := stats })

/-- reconstructGrid from reelStripGenerator.js: version gate first, then
the length check on the stop positions (the source checks
Array.isArray(stopPositions) && stopPositions.length === this.cols and
nothing else about the positions), then the same double loop as
generateInitialGrid.  In the source the stripVersion parameter defaults
to STRIP_VERSION when the caller omits it; an omitted argument is
modelled by passing STRIP_VERSION explicitly.  The statistics are not
touched. -/
def reconstructGrid (rows cols : Nat) (stopPositions : List Nat) (freeSpinsMode : Bool) (stripVersion : String) (st : GenState) : Except GenError (List (List String)) × GenState :=
  if stripVersion ≠ STRIP_VERSION then (Except.error GenError.VersionMismatch, st)
  else if stopPositions.length ≠ cols then (Except.error GenError.InvalidInput, st)
  else (Except.ok (buildGrid (getStrips freeSpinsMode) stopPositions rows cols), st)

/-- A cascade-vacated cell {col, row} as passed to
generateReplacementSymbols. -/
structure CellPos where
  col : Nat
  row : Nat
deriving DecidableEq, Repr

/-- Insert into an ascending list of naturals. -/
def insertAsc (n : Nat) : List Nat → List Nat
  | [] => [n]
  | m :: ms => if n ≤ m then n :: m :: ms else m :: insertAsc n ms

/-- The distinct column keys of the request, ascending.  The source
groups cells into a plain object keyed by column and walks
Object.entries, which enumerates integer-like keys in ascending
numeric order. -/
def colKeys (positions : List CellPos) : List Nat :=
  positions.foldl (fun acc p => if p.col ∈ acc then acc else insertAsc p.col acc) []

/-- Strip position drawn for one cell of generateReplacementSymbols
(lines 228-239): with a truthy cascadeSeed the position-specific seed
cascadeSeed_col_row feeds a fresh seeded stream whose first draw is
floored against the strip length; otherwise one live entropy draw. -/
def cellStripPosition (stripLen : Nat) (cascadeSeed : Option String) (c r : Nat) (src : EntropySource) : Nat × EntropySource :=
  match cascadeSeed with
  | some sd =>
      if sd.isEmpty then randomInt 0 (stripLen - 1) src
      else (floorScale (seededUnitNum (sd ++ "_" ++ toString c ++ "_" ++ toString r) 0) stripLen, src)
  | none => randomInt 0 (stripLen - 1) src

/-- One ReplacementDraw as returned by generateReplacementSymbols. -/
structure Replacement where
  col : Nat
  row : Nat
  symbol : String
  stripPosition : Nat
  stripVersion : String
deriving DecidableEq, Repr

/-- Inner loop of generateReplacementSymbols over the cells of one
column: draw a strip position per cell, read the symbol, bump the
replacement counter. -/
def replacementsForCells (strip : List String) (cascadeSeed : Option String) : List CellPos → GenState → List Replacement × GenState
  | [], st => ([], st)
  | p :: ps, st =>
      let (sp, src1) := cellStripPosition strip.length cascadeSeed p.col p.row st.rng
      let symbol := strip.getD sp ""
      let st1 : GenState :=
        { rng := src1,
          statistics :=
            { st.statistics with
              replacementSymbolsGenerated := st.statistics.replacementSymbolsGenerated + 1 } }
      let (rest, st2) := replacementsForCells strip cascadeSeed ps st1
      ({ col := p.col, row := p.row, symbol := symbol, stripPosition := sp,
         stripVersion := STRIP_VERSION } :: rest, st2)

/-- Outer loop of generateReplacementSymbols over the grouped columns.
getStrip throws on an invalid column, which aborts the whole call. -/
def batchAux (freeSpinsMode : Bool) (positions : List CellPos) (cascadeSeed : Option String) : List Nat → GenState → Except GenError (List Replacement × GenState)
  | [], st => Except.ok ([], st)
  | c :: cs, st =>
      match getStrip c freeSpinsMode with
      | Except.error e => Except.error e
      | Except.ok strip =>
          let cells := positions.filter (fun p => p.col == c)
          let (reps, st1) := replacementsForCells strip cascadeSeed cells st
          match batchAux freeSpinsMode positions cascadeSeed cs st1 with
          | Except.error e => Except.error e
          | Except.ok (rest, st2) => Except.ok (reps ++ rest, st2)

/-- generateReplacementSymbols from reelStripGenerator.js: group the
requested cells by column, then per cell draw one strip position
(seeded by cascadeSeed_col_row when a truthy cascade seed is supplied,
else from live entropy) and read the symbol. -/
def generateReplacementSymbols (positions : List CellPos) (freeSpinsMode : Bool) (cascadeSeed : Option String) (st : GenState) : Except GenError (List Replacement × GenState) :=
  batchAux freeSpinsMode positions cascadeSeed (colKeys positions) st

/-- The replacement list of a batch call, discarding the final state. -/
def batchResultList (positions : List CellPos) (freeSpinsMode : Bool) (cascadeSeed : Option String) (st : GenState) : Except GenError (List Replacement) :=
  Except.map Prod.fst (generateReplacementSymbols positions freeSpinsMode cascadeSeed st)

/-- A concrete generator state whose entropy stream is constantly k. -/
def constState (k : Nat) : GenState :=
  { rng := { stream := fun _ => k, calls := 0 },
    statistics :=
      { gridsGenerated := 0, symbolsGenerated := 0,
        replacementSymbolsGenerated := 0, lastStopPositions := none } }

/-- A generator state whose entropy stream enumerates 0, 1, 2, ... -/
def idState : GenState :=
  { rng := { stream := fun n => n, calls := 0 },
    statistics :=
      { gridsGenerated := 0, symbolsGenerated := 0,
        replacementSymbolsGenerated := 0, lastStopPositions := none } }

/-- A degenerate strip table: 6 columns of 120 copies of time_gem.  It
is structurally well-formed but has zero scatter symbols in every
strip, violating the [4, 7] scatter band. -/
def allTimeGem : List (List String) := List.replicate 6 (List.replicate 120 "time_gem")

/-- Decidable equality for Except results, used to evaluate concrete
replacement draws. -/
instance exceptDecidableEq {e a : Type} [DecidableEq e] [DecidableEq a] : DecidableEq (Except e a) := fun x y =>
  match x, y with
  | Except.ok v, Except.ok w =>
      if h : v = w then isTrue (by rw [h]) else isFalse (fun hc => by injection hc; contradiction)
  | Except.error v, Except.error w =>
      if h : v = w then isTrue (by rw [h]) else isFalse (fun hc => by injection hc; contradiction)
  | Except.ok v, Except.error w => isFalse (fun hc => by injection hc)
  | Except.error v, Except.ok w => isFalse (fun hc => by injection hc)

lemma seededUnitNum_lt (seed : String) (i : Nat) : seededUnitNum seed i < 2 ^ 53 := by
  have key : ∀ (l : List Char) (init : Nat), init < 2 ^ 53 →
      l.foldl (fun h c => (h * 1099511628211 + c.toNat + 1) % 2 ^ 53) init < 2 ^ 53 := by
    intro l
    induction l with
    | nil => intro init h; simpa using h
    | cons c cs ih =>
        intro init h
        exact ih _ (Nat.mod_lt _ (by norm_num))
  exact key seed.data _ (Nat.mod_lt _ (by norm_num))

lemma floorScale_lt {v L : Nat} (hv : v < 2 ^ 53) (hL : 0 < L) : floorScale v L < L := by
  unfold floorScale
  rw [Nat.div_lt_iff_lt_mul (by norm_num : (0:Nat) < 2 ^ 53)]
  exact Nat.mul_lt_mul_of_lt_of_le hv (le_refl L) hL |>.trans_le (le_of_eq (Nat.mul_comm _ _))

lemma seededPositionsAux_length (n : Nat) (s : SeededRNG) :
    (seededPositionsAux n s).1.length = n := by
  induction n generalizing s with
  | zero => rfl
  | succ k ih => simp [seededPositionsAux, nextSeeded, ih]

lemma seededPositionsAux_idx (n : Nat) (s : SeededRNG) :
    (seededPositionsAux n s).2.idx = s.idx + n := by
  induction n generalizing s with
  | zero => simp [seededPositionsAux]
  | succ k ih =>
      simp [seededPositionsAux, nextSeeded, ih]
      omega

lemma seededPositionsAux_all_lt (n : Nat) (s : SeededRNG) :
    (seededPositionsAux n s).1.all (fun p => decide (p < STRIP_LENGTH)) = true := by
  induction n generalizing s with
  | zero => rfl
  | succ k ih =>
      simp [seededPositionsAux, nextSeeded, ih]
      exact floorScale_lt (seededUnitNum_lt _ _) (by norm_num [STRIP_LENGTH])

lemma unseededPositionsAux_length (n : Nat) (src : EntropySource) :
    (unseededPositionsAux n src).1.length = n := by
  induction n generalizing src with
  | zero => rfl
  | succ k ih => simp [unseededPositionsAux, randomInt, ih]

lemma unseededPositionsAux_calls (n : Nat) (src : EntropySource) :
    (unseededPositionsAux n src).2.calls = src.calls + n := by
  induction n generalizing src with
  | zero => simp [unseededPositionsAux]
  | succ k ih =>
      simp [unseededPositionsAux, randomInt, ih]
      omega

lemma unseededPositionsAux_all_lt (n : Nat) (src : EntropySource) :
    (unseededPositionsAux n src).1.all (fun p => decide (p < STRIP_LENGTH)) = true := by
  induction n generalizing src with
  | zero => rfl
  | succ k ih =>
      simp [unseededPositionsAux, randomInt, ih]
      exact Nat.mod_lt _ (by norm_num [STRIP_LENGTH])

lemma generateStopPositions_length (cols : Nat) (seed : Option String) (src : EntropySource) :
    (generateStopPositions cols seed src).1.length = cols := by
  cases seed with
  | none => simp [generateStopPositions, unseededPositionsAux_length]
  | some sd =>
      by_cases h : sd.isEmpty <;>
        simp [generateStopPositions, h, unseededPositionsAux_length, seededPositionsAux_length]

lemma generateStopPositions_all_lt (cols : Nat) (seed : Option String) (src : EntropySource) :
    (generateStopPositions cols seed src).1.all (fun p => decide (p < STRIP_LENGTH)) = true := by
  cases seed with
  | none => simp only [generateStopPositions]; exact unseededPositionsAux_all_lt cols src
  | some sd =>
      by_cases h : sd.isEmpty
      · simp only [generateStopPositions, h, if_true]
        exact unseededPositionsAux_all_lt cols src
      · simp only [generateStopPositions, h, if_false]
        exact seededPositionsAux_all_lt cols _

lemma generateStopPositions_seeded (cols : Nat) (sd : String) (h : sd.isEmpty = false) (src : EntropySource) :
    generateStopPositions cols (some sd) src =
      ((seededPositionsAux cols { seed := sd, idx := 0 }).1, src) := by
  simp [generateStopPositions, h]

lemma getD_map_range {α : Type} (f : Nat → α) (d : α) {n k : Nat} (h : k < n) :
    ((List.range n).map f).getD k d = f k := by
  rw [List.getD_eq_getElem?_getD, List.getElem?_map, List.getElem?_range h]
  rfl

/-- C1: Round-trip identity: for every mode (base or free spins) and
every seed, reconstructGrid applied to the stopPositions returned by
generateInitialGrid, with the same mode and the current STRIP_VERSION,
succeeds and returns exactly the generated grid, from any generator
state. -/
theorem roundtrip_reconstruct_eq_generated (freeSpinsMode : Bool) (seed : Option String) (st st' : GenState) :
    (reconstructGrid 5 6 (generateInitialGrid 5 6 freeSpinsMode seed st).1.stopPositions
        freeSpinsMode STRIP_VERSION st').1 =
      Except.ok (generateInitialGrid 5 6 freeSpinsMode seed st).1.grid := by
  simp [reconstructGrid, generateInitialGrid, generateStopPositions_length]

/-- C2 counterexample: the stop-position vector [500, 0, 0, 0, 0, 0]
has an entry far outside [0, STRIP_LENGTH) = [0, 120), yet
reconstructGrid accepts it and returns a grid (the lookup wraps the
position modulo the strip length); it does not fail with InvalidInput. -/
theorem reconstruct_accepts_out_of_range_position :
    STRIP_LENGTH ≤ 500 ∧
    (reconstructGrid 5 6 [500, 0, 0, 0, 0, 0] false STRIP_VERSION (constState 0)).1 =
      Except.ok (buildGrid (getStrips false) [500, 0, 0, 0, 0, 0] 5 6) ∧
    (reconstructGrid 5 6 [500, 0, 0, 0, 0, 0] false STRIP_VERSION (constState 0)).1 ≠
      Except.error GenError.InvalidInput := by
  refine ⟨by norm_num [STRIP_LENGTH], rfl, ?_⟩
  intro h
  simp [reconstructGrid, STRIP_VERSION] at h

/-- C2 amended: reconstructGrid rejects a stop-position collection with
InvalidInput exactly when its length is not 6; the value of each
position is not checked, and any length-6 vector — including positions
at or above STRIP_LENGTH, which wrap modulo the strip length — is
accepted and reconstructed. -/
theorem reconstruct_invalid_input_iff_wrong_length (sp : List Nat) (freeSpinsMode : Bool) (st : GenState) :
    (sp.length ≠ 6 →
      (reconstructGrid 5 6 sp freeSpinsMode STRIP_VERSION st).1 = Except.error GenError.InvalidInput) ∧
    (sp.length = 6 →
      (reconstructGrid 5 6 sp freeSpinsMode STRIP_VERSION st).1 =
        Except.ok (buildGrid (getStrips freeSpinsMode) sp 5 6)) := by
  constructor
  · intro h; simp [reconstructGrid, h]
  · intro h; simp [reconstructGrid, h]

/-- Witness for the amended C2 at concrete inputs: length 5 is
rejected with InvalidInput, and the length-6 vector [500,0,0,0,0,0] is
reconstructed. -/
theorem reconstruct_invalid_input_iff_wrong_length_witness :
    (reconstructGrid 5 6 [0, 0, 0, 0, 0] false STRIP_VERSION (constState 0)).1 =
      Except.error GenError.InvalidInput ∧
    (reconstructGrid 5 6 [500, 0, 0, 0, 0, 0] false STRIP_VERSION (constState 0)).1 =
      Except.ok (buildGrid (getStrips false) [500, 0, 0, 0, 0, 0] 5 6) := by
  exact ⟨(reconstruct_invalid_input_iff_wrong_length [0, 0, 0, 0, 0] false (constState 0)).1 (by decide),
         (reconstruct_invalid_input_iff_wrong_length [500, 0, 0, 0, 0, 0] false (constState 0)).2 (by decide)⟩

/-- C3: Version gating: reconstructGrid fails with VersionMismatch for
every supplied stripVersion different from the registry's current
STRIP_VERSION, whose value is "2.0.0". -/
theorem reconstruct_version_gate (sp : List Nat) (freeSpinsMode : Bool) (v : String) (st : GenState) :
    (v ≠ STRIP_VERSION →
      (reconstructGrid 5 6 sp freeSpinsMode v st).1 = Except.error GenError.VersionMismatch) ∧
    STRIP_VERSION = "2.0.0" := by
  constructor
  · intro h; simp [reconstructGrid, h]
  · rfl

/-- Witness for C3: reconstructing under version "0.0.1" while the live
version is "2.0.0" fails with VersionMismatch. -/
theorem reconstruct_version_gate_witness :
    (reconstructGrid 5 6 [0, 0, 0, 0, 0, 0] false "0.0.1" (constState 0)).1 =
      Except.error GenError.VersionMismatch :=
  (reconstruct_version_gate [0, 0, 0, 0, 0, 0] false "0.0.1" (constState 0)).1 (by decide)

/-- C9: Frame property of reconstruction: a reconstructGrid call,
whether it succeeds or fails, returns the generator state unchanged; in
particular gridsGenerated, symbolsGenerated,
replacementSymbolsGenerated and lastStopPositions all keep their
values. -/
theorem reconstruct_preserves_statistics (rows cols : Nat) (sp : List Nat) (freeSpinsMode : Bool) (v : String) (st : GenState) :
    (reconstructGrid rows cols sp freeSpinsMode v st).2.statistics.gridsGenerated =
        st.statistics.gridsGenerated ∧
    (reconstructGrid rows cols sp freeSpinsMode v st).2.statistics.symbolsGenerated =
        st.statistics.symbolsGenerated ∧
    (reconstructGrid rows cols sp freeSpinsMode v st).2.statistics.replacementSymbolsGenerated =
        st.statistics.replacementSymbolsGenerated ∧
    (reconstructGrid rows cols sp freeSpinsMode v st).2.statistics.lastStopPositions =
        st.statistics.lastStopPositions := by
  have h : (reconstructGrid rows cols sp freeSpinsMode v st).2 = st := by
    unfold reconstructGrid
    split <;> [rfl; skip]
    split <;> rfl
  rw [h]
  exact ⟨rfl, rfl, rfl, rfl⟩

/-- C10: With the default stripVersion argument (the source declares
`stripVersion = STRIP_VERSION`, so an omitted argument supplies the
registry's current version), the version gate can never fire: the call
never fails with VersionMismatch, and reconstruction proceeds for any
length-6 stop-position vector with no version evidence from the
caller. -/
theorem reconstruct_default_version_never_mismatches (sp : List Nat) (freeSpinsMode : Bool) (st : GenState) :
    ((reconstructGrid 5 6 sp freeSpinsMode STRIP_VERSION st).1 ≠
        Except.error GenError.VersionMismatch) ∧
    (sp.length = 6 →
      (reconstructGrid 5 6 sp freeSpinsMode STRIP_VERSION st).1 =
        Except.ok (buildGrid (getStrips freeSpinsMode) sp 5 6)) := by
  constructor
  · unfold reconstructGrid
    simp only [ne_eq, not_true_eq_false, if_false, ite_not]
    split <;> simp
  · intro h; simp [reconstructGrid, h]

/-- Witness for C10 at a concrete input: the default-version call on a
length-6 vector reconstructs a grid. -/
theorem reconstruct_default_version_never_mismatches_witness :
    (reconstructGrid 5 6 [1, 2, 3, 4, 5, 6] true STRIP_VERSION (constState 0)).1 =
      Except.ok (buildGrid (getStrips true) [1, 2, 3, 4, 5, 6] 5 6) :=
  (reconstruct_default_version_never_mismatches [1, 2, 3, 4, 5, 6] true (constState 0)).2 (by decide)

set_option maxRecDepth 100000 in
lemma getStrips_col_length (freeSpinsMode : Bool) {c : Nat} (hc : c < 6) :
    ((getStrips freeSpinsMode).getD c []).length = STRIP_LENGTH := by
  have h : ∀ c' < 6, ((getStrips freeSpinsMode).getD c' []).length = STRIP_LENGTH := by
    cases freeSpinsMode <;> decide
  exact h c hc

/-- C5: Grid synthesis indexing rule: in either mode, from any seed and
any generator state, cell (c, r) of the generated grid is the symbol of
column c's strip at index (stopPositions[c] + r) mod STRIP_LENGTH; and
concretely, a base-mode grid whose column 0 stopped at position 0 has
rows 0-4 of column 0 equal to [time_gem, time_gem, space_gem,
space_gem, mind_gem]. -/
theorem grid_synthesis_indexing (freeSpinsMode : Bool) (seed : Option String) (st : GenState) (c r : Nat) (hc : c < 6) (hr : r < 5) :
    (((generateInitialGrid 5 6 freeSpinsMode seed st).1.grid.getD c []).getD r "" =
      ((getStrips freeSpinsMode).getD c []).getD
        (((generateInitialGrid 5 6 freeSpinsMode seed st).1.stopPositions.getD c 0 + r) %
          STRIP_LENGTH) "") ∧
    (generateInitialGrid 5 6 false none (constState 0)).1.grid.getD 0 [] =
      ["time_gem", "time_gem", "space_gem", "space_gem", "mind_gem"] := by
  constructor
  · simp only [generateInitialGrid, buildGrid]
    rw [getD_map_range _ _ hc, getD_map_range _ _ hr, getStrips_col_length freeSpinsMode hc]
  · rfl

/-- Witness for C5 at concrete indices: column 2, row 3 of a free-spins
grid generated from the constant-7 entropy stream obeys the indexing
rule, and the concrete base-mode column is as stated. -/
theorem grid_synthesis_indexing_witness :
    (((generateInitialGrid 5 6 true none (constState 7)).1.grid.getD 2 []).getD 3 "" =
      ((getStrips true).getD 2 []).getD
        (((generateInitialGrid 5 6 true none (constState 7)).1.stopPositions.getD 2 0 + 3) %
          STRIP_LENGTH) "") ∧
    (generateInitialGrid 5 6 false none (constState 0)).1.grid.getD 0 [] =
      ["time_gem", "time_gem", "space_gem", "space_gem", "mind_gem"] :=
  grid_synthesis_indexing true none (constState 7) 2 3 (by decide) (by decide)

/-- C4: Entropy budget and stop-position range: generateInitialGrid
always draws once per column — with no seed (or the falsy empty seed)
six draws from the live provider, with a non-empty seed six draws from
a fresh seeded stream and none from the live provider — independently
of the number of rows, and the resulting stopPositions list has exactly
6 entries, each in [0, STRIP_LENGTH). -/
theorem entropy_budget (rows : Nat) (freeSpinsMode : Bool) (st : GenState) (sd : String) :
    ((generateInitialGrid rows 6 freeSpinsMode none st).2.rng.calls = st.rng.calls + 6) ∧
    ((generateInitialGrid rows 6 freeSpinsMode (some "") st).2.rng.calls = st.rng.calls + 6) ∧
    (sd.isEmpty = false →
      (generateInitialGrid rows 6 freeSpinsMode (some sd) st).2.rng.calls = st.rng.calls ∧
      (seededPositionsAux 6 { seed := sd, idx := 0 }).2.idx = 6) ∧
    (∀ seed : Option String,
      (generateInitialGrid rows 6 freeSpinsMode seed st).1.stopPositions.length = 6 ∧
      (generateInitialGrid rows 6 freeSpinsMode seed st).1.stopPositions.all
        (fun p => decide (p < STRIP_LENGTH)) = true) := by
  refine ⟨?_, ?_, ?_, ?_⟩
  · simp [generateInitialGrid, generateStopPositions, unseededPositionsAux_calls]
  · simp [generateInitialGrid, generateStopPositions, String.isEmpty, unseededPositionsAux_calls]
  · intro h
    constructor
    · simp [generateInitialGrid, generateStopPositions_seeded _ _ h]
    · simpa using seededPositionsAux_idx 6 { seed := sd, idx := 0 }
  · intro seed
    constructor
    · simp [generateInitialGrid, generateStopPositions_length]
    · simpa [generateInitialGrid] using generateStopPositions_all_lt 6 seed st.rng

/-- Witness for C4 at a concrete input: from the enumerating entropy
state, an unseeded base grid advances the provider by 6 calls, a grid
seeded with "seed-X" leaves it untouched while the seeded stream is
drawn 6 times, and the stop positions are 6 values below 120. -/
theorem entropy_budget_witness :
    ((generateInitialGrid 5 6 false none idState).2.rng.calls = (idState).rng.calls + 6) ∧
    ((generateInitialGrid 5 6 false (some "seed-X") idState).2.rng.calls = (idState).rng.calls ∧
      (seededPositionsAux 6 { seed := "seed-X", idx := 0 }).2.idx = 6) ∧
    ((generateInitialGrid 5 6 false none idState).1.stopPositions.length = 6 ∧
      (generateInitialGrid 5 6 false none idState).1.stopPositions.all
        (fun p => decide (p < STRIP_LENGTH)) = true) :=
  ⟨(entropy_budget 5 false idState "seed-X").1,
   (entropy_budget 5 false idState "seed-X").2.2.1 (by decide),
   (entropy_budget 5 false idState "seed-X").2.2.2 none⟩

/-- C6 counterexample: with the non-null but empty seed "", the seeded
branch is skipped (the source tests JS truthiness, not null-ness), so
two successive calls with identical arguments draw live entropy and
return different stop positions. -/
theorem two_calls_empty_seed_differ :
    (generateInitialGrid 5 6 false (some "") idState).1.stopPositions ≠
      (generateInitialGrid 5 6 false (some "")
        ((generateInitialGrid 5 6 false (some "") idState).2)).1.stopPositions := by
  decide

/-- C6 amended: for every mode and every non-empty seed string, the
stop positions and the grid returned by generateInitialGrid are a pure
function of (mode, seed): two calls from any two generator states
return identical stopPositions and identical grids. -/
theorem seeded_determinism (freeSpinsMode : Bool) (sd : String) (st1 st2 : GenState) (h : sd.isEmpty = false) :
    (generateInitialGrid 5 6 freeSpinsMode (some sd) st1).1.stopPositions =
      (generateInitialGrid 5 6 freeSpinsMode (some sd) st2).1.stopPositions ∧
    (generateInitialGrid 5 6 freeSpinsMode (some sd) st1).1.grid =
      (generateInitialGrid 5 6 freeSpinsMode (some sd) st2).1.grid := by
  simp [generateInitialGrid, generateStopPositions_seeded _ _ h]

/-- Witness for the amended C6: calls seeded with "seed-X" from two
different generator states agree. -/
theorem seeded_determinism_witness :
    (generateInitialGrid 5 6 false (some "seed-X") (constState 0)).1.stopPositions =
      (generateInitialGrid 5 6 false (some "seed-X") (constState 1)).1.stopPositions ∧
    (generateInitialGrid 5 6 false (some "seed-X") (constState 0)).1.grid =
      (generateInitialGrid 5 6 false (some "seed-X") (constState 1)).1.grid :=
  seeded_determinism false "seed-X" (constState 0) (constState 1) (by decide)


lemma foldl_id {α β : Type} (f : β → α → β) (l : List α)
    (h : ∀ x ∈ l, ∀ a, f a x = a) : ∀ acc, l.foldl f acc = acc := by
  induction l with
  | nil => intro acc; rfl
  | cons x xs ih =>
      intro acc
      rw [List.foldl_cons, h x (List.mem_cons_self x xs) acc]
      exact ih (fun y hy a => h y (List.mem_cons_of_mem x hy) a) acc

lemma foldl_keep {α : Type} (f : ValidationResult → α → ValidationResult) (l : List α)
    (h : ∀ x ∈ l, ∀ a, (f a x).valid = a.valid ∧ (f a x).errors = a.errors) :
    ∀ acc, (l.foldl f acc).valid = acc.valid ∧ (l.foldl f acc).errors = acc.errors := by
  induction l with
  | nil => intro acc; exact ⟨rfl, rfl⟩
  | cons x xs ih =>
      intro acc
      have hx := h x (List.mem_cons_self x xs) acc
      have hrest := ih (fun y hy a => h y (List.mem_cons_of_mem x hy) a) (f acc x)
      rw [List.foldl_cons]
      exact ⟨hrest.1.trans hx.1, hrest.2.trans hx.2⟩

lemma getD_eq_get (l : List String) {n : Nat} (h : n < l.length) :
    l.getD n "" = l.get ⟨n, h⟩ := by
  rw [List.getD_eq_getElem?_getD, List.getElem?_eq_getElem h]
  rfl

lemma getD_eq_get_lists (l : List (List String)) {n : Nat} (h : n < l.length) :
    l.getD n [] = l.get ⟨n, h⟩ := by
  rw [List.getD_eq_getElem?_getD, List.getElem?_eq_getElem h]
  rfl

lemma alphabetCheckStep_id (m : String) (col : Nat) (strip : List String)
    (hall : strip.all (fun s => validSymbols.contains s) = true)
    {pos : Nat} (hlt : pos < strip.length) (a : ValidationResult) :
    alphabetCheckStep m col strip a pos = a := by
  have hc : validSymbols.contains (strip.getD pos "") = true := by
    rw [getD_eq_get strip hlt]
    exact (List.all_eq_true.mp hall) _ (strip.get_mem _ _)
  unfold alphabetCheckStep
  rw [if_pos hc]

lemma checkStrip_keep (m : String) (col : Nat) (strip : List String)
    (h : stripStructOk strip = true) (acc : ValidationResult) :
    (checkStrip m col strip acc).valid = acc.valid ∧
      (checkStrip m col strip acc).errors = acc.errors := by
  rw [stripStructOk, Bool.and_eq_true] at h
  obtain ⟨hlen, hall⟩ := h
  have hlen' : strip.length = STRIP_LENGTH := by simpa using hlen
  simp only [checkStrip]
  rw [if_neg (show ¬(strip.length ≠ STRIP_LENGTH) from by simp [hlen'])]
  rw [foldl_id _ _
    (fun pos hpos a => alphabetCheckStep_id m col strip hall (List.mem_range.mp hpos) a) acc]
  by_cases hsc : scatterCount strip < 4 ∨ scatterCount strip > 7
  · rw [if_pos hsc]; exact ⟨rfl, rfl⟩
  · rw [if_neg hsc]; exact ⟨rfl, rfl⟩

lemma checkMode_keep (m : String) (strips : List (List String))
    (h : modeStructOk strips = true) (acc : ValidationResult) :
    (checkMode m strips acc).valid = acc.valid ∧
      (checkMode m strips acc).errors = acc.errors := by
  rw [modeStructOk, Bool.and_eq_true] at h
  obtain ⟨hlen, hall⟩ := h
  have hlen' : strips.length = 6 := by simpa using hlen
  unfold checkMode
  rw [if_neg (show ¬(strips.length ≠ 6) from by simp [hlen'])]
  refine foldl_keep _ (List.range strips.length) ?_ acc
  intro col hcol a
  have hlt : col < strips.length := List.mem_range.mp hcol
  refine checkStrip_keep m col _ ?_ a
  rw [getD_eq_get_lists strips hlt]
  exact (List.all_eq_true.mp hall) _ (strips.get_mem _ _)

lemma checkStrip_id (m : String) (col : Nat) (strip : List String)
    (h : stripStructOk strip = true)
    (hband : decide (4 ≤ scatterCount strip ∧ scatterCount strip ≤ 7) = true)
    (acc : ValidationResult) :
    checkStrip m col strip acc = acc := by
  rw [stripStructOk, Bool.and_eq_true] at h
  obtain ⟨hlen, hall⟩ := h
  have hlen' : strip.length = STRIP_LENGTH := by simpa using hlen
  have hband' := of_decide_eq_true hband
  simp only [checkStrip]
  rw [if_neg (show ¬(strip.length ≠ STRIP_LENGTH) from by simp [hlen'])]
  rw [foldl_id _ _
    (fun pos hpos a => alphabetCheckStep_id m col strip hall (List.mem_range.mp hpos) a) acc]
  rw [if_neg (show ¬(scatterCount strip < 4 ∨ scatterCount strip > 7) from by omega)]

lemma checkMode_id (m : String) (strips : List (List String))
    (h : modeStructOk strips = true)
    (hband : strips.all (fun s => decide (4 ≤ scatterCount s ∧ scatterCount s ≤ 7)) = true)
    (acc : ValidationResult) :
    checkMode m strips acc = acc := by
  rw [modeStructOk, Bool.and_eq_true] at h
  obtain ⟨hlen, hall⟩ := h
  have hlen' : strips.length = 6 := by simpa using hlen
  unfold checkMode
  rw [if_neg (show ¬(strips.length ≠ 6) from by simp [hlen'])]
  refine foldl_id _ (List.range strips.length) ?_ acc
  intro col hcol a
  have hlt : col < strips.length := List.mem_range.mp hcol
  refine checkStrip_id m col _ ?_ ?_ a
  · rw [getD_eq_get_lists strips hlt]
    exact (List.all_eq_true.mp hall) _ (strips.get_mem _ _)
  · rw [getD_eq_get_lists strips hlt]
    exact (List.all_eq_true.mp hband) _ (strips.get_mem _ _)

set_option maxRecDepth 100000 in
/-- C7: Structural validity of the shipped strip data: validateStrips
on the shipped tables reports valid with no errors and no warnings; all
12 strips (6 columns in each of the 2 modes) pass the structural checks
(length exactly 120, every element in the 10-symbol alphabet) and have
scatter counts within [4, 7]; and in general a scatter count outside
the band can never cause a validation failure: any strip tables passing
the structural checks validate with valid = true and an empty errors
list, whatever their scatter counts. -/
theorem strips_structurally_valid (base free : List (List String)) :
    (validateStrips = { valid := true, errors := [], warnings := [] }) ∧
    ((BASE_GAME_STRIPS ++ FREE_SPINS_STRIPS).all
      (fun s => decide (4 ≤ scatterCount s ∧ scatterCount s ≤ 7)) = true) ∧
    (modeStructOk BASE_GAME_STRIPS = true ∧ modeStructOk FREE_SPINS_STRIPS = true) ∧
    (modeStructOk base = true → modeStructOk free = true →
      (validateStripsOn base free).valid = true ∧ (validateStripsOn base free).errors = []) := by
  refine ⟨?_, rfl, ⟨rfl, rfl⟩, ?_⟩
  · unfold validateStrips validateStripsOn
    rw [checkMode_id "base" BASE_GAME_STRIPS rfl rfl,
        checkMode_id "free_spins" FREE_SPINS_STRIPS rfl rfl]
  · intro hbase hfree
    have h1 := checkMode_keep "base" base hbase { valid := true, errors := [], warnings := [] }
    have h2 := checkMode_keep "free_spins" free hfree
      (checkMode "base" base { valid := true, errors := [], warnings := [] })
    unfold validateStripsOn
    exact ⟨h2.1.trans h1.1, h2.2.trans h1.2⟩

set_option maxRecDepth 100000 in
/-- Witness for C7: the scatter-band-violating table allTimeGem (every
scatter count is 0) still validates with valid = true and no errors;
the violation surfaces only as warnings. -/
theorem strips_structurally_valid_witness :
    ((validateStripsOn allTimeGem allTimeGem).valid = true ∧
      (validateStripsOn allTimeGem allTimeGem).errors = []) ∧
    (validateStripsOn allTimeGem allTimeGem).warnings ≠ [] ∧
    scatterCount (List.replicate 120 "time_gem") = 0 :=
  ⟨(strips_structurally_valid allTimeGem allTimeGem).2.2.2 (by decide) (by decide),
   by decide, by decide⟩

lemma replacementsForCells_seeded_eq (strip : List String) (sd : String)
    (h : sd.isEmpty = false) (cells : List CellPos) (st : GenState) :
    (replacementsForCells strip (some sd) cells st).1 = cells.map (fun p =>
      { col := p.col, row := p.row,
        symbol := strip.getD
          (floorScale (seededUnitNum (sd ++ "_" ++ toString p.col ++ "_" ++ toString p.row) 0)
            strip.length) "",
        stripPosition :=
          floorScale (seededUnitNum (sd ++ "_" ++ toString p.col ++ "_" ++ toString p.row) 0)
            strip.length,
        stripVersion := STRIP_VERSION }) := by
  induction cells generalizing st with
  | nil => rfl
  | cons p ps ih => simp [replacementsForCells, cellStripPosition, h, ih]

lemma batchAux_fst_state_indep (freeSpinsMode : Bool) (positions : List CellPos) (sd : String)
    (h : sd.isEmpty = false) :
    ∀ (keys : List Nat) (st1 st2 : GenState),
      Except.map Prod.fst (batchAux freeSpinsMode positions (some sd) keys st1) =
        Except.map Prod.fst (batchAux freeSpinsMode positions (some sd) keys st2) := by
  intro keys
  induction keys with
  | nil => intro st1 st2; rfl
  | cons c cs ih =>
      intro st1 st2
      simp only [batchAux]
      cases hstrip : getStrip c freeSpinsMode with
      | error e => rfl
      | ok strip =>
          simp only [hstrip]
          have hc := replacementsForCells_seeded_eq strip sd h
            (positions.filter (fun p => p.col == c))
          have hrec := ih (replacementsForCells strip (some sd)
              (positions.filter (fun p => p.col == c)) st1).2
            (replacementsForCells strip (some sd)
              (positions.filter (fun p => p.col == c)) st2).2
          cases h1 : batchAux freeSpinsMode positions (some sd) cs
              (replacementsForCells strip (some sd)
                (positions.filter (fun p => p.col == c)) st1).2 with
          | error e =>
              cases h2 : batchAux freeSpinsMode positions (some sd) cs
                  (replacementsForCells strip (some sd)
                    (positions.filter (fun p => p.col == c)) st2).2 with
              | error e2 =>
                  rw [h1, h2] at hrec
                  simp only [Except.map] at hrec
                  cases hrec
                  simp [h1, h2]
              | ok r2 =>
                  rw [h1, h2] at hrec
                  simp [Except.map] at hrec
          | ok r1 =>
              cases h2 : batchAux freeSpinsMode positions (some sd) cs
                  (replacementsForCells strip (some sd)
                    (positions.filter (fun p => p.col == c)) st2).2 with
              | error e2 =>
                  rw [h1, h2] at hrec
                  simp [Except.map] at hrec
              | ok r2 =>
                  rw [h1, h2] at hrec
                  simp only [Except.map] at hrec
                  injection hrec with hr
                  simp [Except.map, h1, h2, hc, hr]

set_option maxRecDepth 100000 in
/-- C8 counterexample: with the non-null but empty cascadeSeed "", the
source's truthiness test skips seed derivation (positionSeed is null),
so the draw for cell (0,0) comes from live entropy and depends on the
provider state: two generators give different symbols for the same
cell and the same cascadeSeed. -/
theorem replacement_empty_seed_not_deterministic :
    batchResultList [{ col := 0, row := 0 }] false (some "") (constState 0) ≠
      batchResultList [{ col := 0, row := 0 }] false (some "") (constState 4) := by
  decide

set_option maxRecDepth 100000 in
/-- C8 amended: for every cell list, mode and non-empty cascadeSeed,
the replacement draws (symbol and consumed strip position per cell)
are a pure function of (cells, mode, cascadeSeed): any two generator
states give the same result list, because each cell's seed is derived
as cascadeSeed_col_row; and with no seed at all the two draws may
differ, as witnessed by cell (0,0) under two different entropy
states. -/
theorem replacement_seeded_determinism (positions : List CellPos) (freeSpinsMode : Bool) (sd : String) (st1 st2 : GenState) (h : sd.isEmpty = false) :
    (batchResultList positions freeSpinsMode (some sd) st1 =
      batchResultList positions freeSpinsMode (some sd) st2) ∧
    batchResultList [{ col := 0, row := 0 }] false none (constState 0) ≠
      batchResultList [{ col := 0, row := 0 }] false none (constState 4) := by
  constructor
  · unfold batchResultList generateReplacementSymbols
    exact batchAux_fst_state_indep freeSpinsMode positions sd h (colKeys positions) st1 st2
  · decide

/-- Witness for the amended C8: the cells (0,0) and (2,3) under
cascadeSeed "cascade-1" get the same replacement draws from two
different generator states. -/
theorem replacement_seeded_determinism_witness :
    batchResultList [{ col := 0, row := 0 }, { col := 2, row := 3 }] false (some "cascade-1")
        (constState 0) =
      batchResultList [{ col := 0, row := 0 }, { col := 2, row := 3 }] false (some "cascade-1")
        (constState 4) :=
  (replacement_seeded_determinism [{ col := 0, row := 0 }, { col := 2, row := 3 }] false
    "cascade-1" (constState 0) (constState 4) (by decide)).1
